import Mathlib

/-
Verification of src/src/hidl/module-droid-hidl.c (pulseaudio-modules-droid-hidl).

Shallow embedding: each C function of the module is translated into a pure
Lean function.  Observable side effects (logging, D-Bus replies, device
calls, process signals, resource releases) are recorded in a trace of
actions (the Act type).  External library calls (pulsecore, libdbus,
libdroid) are modelled by the interface contract the module relies on:
a release call performed on a null handle is a fault (the pulsecore
release functions assert a non-null argument), so a function that can
reach such a call returns an Option, with none standing for the fault.
Machine integers that matter (pid_t markers, file descriptors, device
status) are modelled as Int; no overflow is relevant at the values used.
-/

/-- Log levels of the host logging library (PA_LOG_ERROR .. PA_LOG_DEBUG). -/
inductive PaLogLevel
  | error
  | warn
  | notice
  | info
  | debug
deriving DecidableEq, Repr

/-- Embeds log_level_debug (module-droid-hidl.c:91-95): true exactly when the
module's configured level _log_level is PA_LOG_DEBUG. -/
def log_level_debug (lvl : PaLogLevel) : Bool :=
  if lvl == PaLogLevel.debug then true else false

/-- Severity of an emitted log record.  plain is the severity of the bare
pa_log call (the level-suffixed variants are debug / info / warn). -/
inductive LogSeverity
  | debug
  | info
  | warn
  | plain
deriving DecidableEq, Repr

/-- A D-Bus reply sent back on the connection.  methodReturn carries the
string appended to a dbus_message_new_method_return message (none models
the device returning a null pointer, passed through unchanged);
emptyReply is pa_dbus_send_empty_reply; errorReply is pa_dbus_send_error
with its formatted message. -/
inductive Reply
  | methodReturn (payload : Option String)
  | emptyReply
  | errorReply (msg : String)
deriving DecidableEq, Repr

/-- Observable actions of the module, in program order. -/
inductive Act
  | lock
  | unlock
  | devGet (keys : String)
  | devSet (kvp : String)
  | log (sev : LogSeverity) (msg : String)
  | reply (r : Reply)
  | dbusUnregisterExtension (p : Nat)
  | dbusRemoveInterface (p : Nat)
  | dbusUnref (p : Nat)
  | hwModuleUnref (h : Nat)
  | kill (pid : Int)
  | waitpidCall
  | ioEventFree (ev : Nat)
  | closeFd (fd : Int)
  | freeUserdata
deriving DecidableEq, Repr

/-- The opaque droid hw device handle, modelled by the two operations the
module invokes on it.  get_parameters may return a null pointer (none);
set_parameters returns a C int status. -/
structure HwDevice where
  get_parameters : String → Option String
  set_parameters : String → Int

/-- The struct userdata fields the claims touch.  dbus_protocol, hw_module
and io_event are pointers whose null state the teardown logic inspects,
modelled as Option with an opaque handle id; pid uses the code's own
(pid_t) -1 absent marker and fd its -1 marker, both kept as Int. -/
structure Userdata where
  dbus_protocol : Option Nat
  hw_module : Option Nat
  pid : Int
  fd : Int
  io_event : Option Nat
deriving DecidableEq, Repr

/-- Embeds hidl_get_parameters (module-droid-hidl.c:159-194).  The result of
dbus_message_get_args is the args parameter: ok keys on success, error e
with the DBusError message on parse failure. -/
def hidl_get_parameters (args : Except String String) (dev : HwDevice) : List Act :=
  match args with
  | Except.ok keys =>
      let key_value_pairs := dev.get_parameters keys
      [ Act.lock,
        Act.devGet keys,
        Act.unlock,
        Act.log LogSeverity.debug
          ("get_parameters(\x22" ++ keys ++ "\x22): \x22" ++
            (match key_value_pairs with
             | some s => s
             | none => "<null>") ++ "\x22"),
        Act.reply (Reply.methodReturn key_value_pairs) ]
  | Except.error e =>
      [ Act.reply (Reply.errorReply ("Fail: " ++ e)) ]

/-- Embeds hidl_set_parameters (module-droid-hidl.c:196-228). -/
def hidl_set_parameters (args : Except String String) (dev : HwDevice) : List Act :=
  match args with
  | Except.ok kvp =>
      let ret := dev.set_parameters kvp
      [ Act.log LogSeverity.debug ("set_parameters(\x22" ++ kvp ++ "\x22)"),
        Act.lock,
        Act.devSet kvp,
        Act.unlock ] ++
      (if ret != 0 then
        [ Act.log LogSeverity.warn
            ("set_parameters(\x22" ++ kvp ++ "\x22) failed: " ++ toString ret),
          Act.reply (Reply.errorReply "Failed to set parameters.") ]
      else
        [ Act.reply Reply.emptyReply ])
  | Except.error e =>
      [ Act.reply (Reply.errorReply ("Fail: " ++ e)) ]

/-- Embeds io_free (module-droid-hidl.c:230-240): release the io event if
present, then close the fd if non-negative, clearing each field. -/
def io_free (u : Userdata) : Userdata × List Act :=
  let s1 :=
    match u.io_event with
    | some ev => ({ u with io_event := none }, [Act.ioEventFree ev])
    | none => (u, [])
  if s1.1.fd ≥ 0 then
    ({ s1.1 with fd := -1 }, s1.2 ++ [Act.closeFd s1.1.fd])
  else
    s1

/-- The io event flags PA_IO_EVENT_INPUT / HANGUP / ERROR delivered to
io_event_cb, one Bool per bit. -/
structure IoFlags where
  input : Bool
  hangup : Bool
  error : Bool
deriving DecidableEq, Repr

/-- The outcome of the pa_read call inside io_event_cb: data bytes for a
positive return (bytes are the r bytes written, r = bytes.length > 0),
empty for a zero return, failed for a negative return. -/
inductive ReadOutcome
  | data (bytes : List UInt8)
  | empty
  | failed
deriving DecidableEq, Repr

/-- BUFFER_MAX (module-droid-hidl.c:74). -/
def BUFFER_MAX : Nat := 512

/-- Modelled from the spec: the helper binary's name, HELPER_NAME, is a
build-system constant not present in the source unit; its exact value is
immaterial to every claim. -/
def HELPER_NAME : String := "hidl-helper"

/-- The scratch buffer of io_event_cb after memset(buffer, 0, BUFFER_MAX)
followed by a read that wrote the given bytes (at most BUFFER_MAX of them
fit): the bytes written, then the untouched zeroed remainder. -/
def bufferAfterRead (bytes : List UInt8) : List UInt8 :=
  bytes.take BUFFER_MAX ++
    List.replicate (BUFFER_MAX - (bytes.take BUFFER_MAX).length) (0 : UInt8)

/-- The text a %s conversion reads from the buffer: the bytes up to (not
including) the first NUL.  When the buffer holds no NUL at all, the C
code reads past the buffer; this in-bounds part is what the model logs. -/
def cstring (buf : List UInt8) : String :=
  String.mk ((buf.takeWhile (fun b => b ≠ 0)).map (fun b => Char.ofNat b.toNat))

/-- Embeds io_event_cb (module-droid-hidl.c:242-267): one invocation of the
event callback, given the reported flags, the outcome pa_read would
produce, the module's configured log level and the current state. -/
def io_event_cb (events : IoFlags) (r : ReadOutcome) (lvl : PaLogLevel)
    (u : Userdata) : Userdata × List Act :=
  if events.input then
    match r with
    | ReadOutcome.data bytes =>
        let msg := "[" ++ HELPER_NAME ++ "] " ++ cstring (bufferAfterRead bytes)
        if log_level_debug lvl then
          (u, [Act.log LogSeverity.debug msg])
        else
          (u, [Act.log LogSeverity.plain msg])
    | ReadOutcome.empty => (u, [])
    | ReadOutcome.failed =>
        let s := io_free u
        (s.1, Act.log LogSeverity.plain "failed read" :: s.2)
  else if events.hangup then
    let s := io_free u
    (s.1, Act.log LogSeverity.debug "helper disappeared" :: s.2)
  else if events.error then
    let s := io_free u
    (s.1, Act.log LogSeverity.plain "io error" :: s.2)
  else
    (u, [])

/-- Embeds dbus_done (module-droid-hidl.c:150-157).  The three pulsecore
release calls (unregister extension, remove interface, unref) all assert a
non-null protocol object, and dbus_done performs them on u->dbus_protocol
unconditionally; from a state where the protocol reference was never
taken the call therefore faults, modelled as none. -/
def dbus_done (u : Userdata) : Option (Userdata × List Act) :=
  match u.dbus_protocol with
  | some p =>
      some ({ u with dbus_protocol := none },
        [Act.dbusUnregisterExtension p, Act.dbusRemoveInterface p, Act.dbusUnref p])
  | none => none

/-- The guarded hw-module release step of pa__done (module-droid-hidl.c:
344-345): unref only when the pointer is non-null; the field itself is not
cleared by the code. -/
def hw_module_unref_step (u : Userdata) : Userdata × List Act :=
  match u.hw_module with
  | some h => (u, [Act.hwModuleUnref h])
  | none => (u, [])

/-- One waitpid(pid, NULL, 0) outcome as the loop in pa__done observes it:
a non-negative return (success), or -1 with errno EINTR (eintr), or -1
with any other errno (failed). -/
inductive WaitResult
  | success
  | eintr
  | failed
deriving DecidableEq, Repr

/-- Embeds the for(;;) waitpid loop of pa__done (module-droid-hidl.c:
350-358), driven by the list of outcomes successive waitpid calls return:
break on success; retry on EINTR; log and break on any other failure.
An exhausted list models the loop still blocked in its next waitpid. -/
def wait_loop : List WaitResult → List Act
  | [] => []
  | WaitResult.success :: _ => [Act.waitpidCall]
  | WaitResult.eintr :: rest => Act.waitpidCall :: wait_loop rest
  | WaitResult.failed :: _ =>
      [Act.waitpidCall, Act.log LogSeverity.plain "waitpid() failed"]

/-- Embeds the helper-termination step of pa__done (module-droid-hidl.c:
347-359): if a pid is tracked, one SIGTERM then the waitpid loop; the pid
field is not cleared by the code. -/
def terminate (u : Userdata) (w : List WaitResult) : List Act :=
  if u.pid ≠ -1 then Act.kill u.pid :: wait_loop w else []

/-- The pa_module fields pa__done reads: the userdata pointer, plus a flag
recording that pa_xfree(u) already ran while m->userdata was left
dangling (the code never clears it). -/
structure PaModule where
  userdata : Option Userdata
  userdata_freed : Bool
deriving DecidableEq, Repr

/-- Embeds pa__done (module-droid-hidl.c:336-365).  With no userdata it is
a no-op.  Otherwise it runs dbus_done unconditionally (faulting, none,
when the protocol reference is absent), the guarded hw-module unref, the
guarded kill/waitpid reap, io_free, and frees the userdata — without
clearing m->userdata, so a second call dereferences freed memory,
modelled as a fault (none). -/
def pa__done (m : PaModule) (w : List WaitResult) : Option (PaModule × List Act) :=
  match m.userdata with
  | none => some (m, [])
  | some u =>
      if m.userdata_freed then
        none
      else
        match dbus_done u with
        | none => none
        | some (u1, t1) =>
            let s2 := hw_module_unref_step u1
            let t3 := terminate s2.1 w
            let s4 := io_free s2.1
            some ({ userdata := some s4.1, userdata_freed := true },
              t1 ++ s2.2 ++ t3 ++ s4.2 ++ [Act.freeUserdata])

/-- Recognizes a kill (SIGTERM) action. -/
def isKill : Act → Bool
  | Act.kill _ => true
  | _ => false

/-- Recognizes a waitpid call action. -/
def isWaitCall : Act → Bool
  | Act.waitpidCall => true
  | _ => false

/-- Recognizes a warning-severity log record. -/
def isWarnLog : Act → Bool
  | Act.log LogSeverity.warn _ => true
  | _ => false

/-- Recognizes a debug-severity log record. -/
def isDebugLog : Act → Bool
  | Act.log LogSeverity.debug _ => true
  | _ => false

/-- Recognizes a record logged by the bare pa_log call. -/
def isPlainLog : Act → Bool
  | Act.log LogSeverity.plain _ => true
  | _ => false

/-- Recognizes an error reply. -/
def isErrorReply : Act → Bool
  | Act.reply (Reply.errorReply _) => true
  | _ => false

/-- Recognizes an empty success reply. -/
def isEmptyReply : Act → Bool
  | Act.reply Reply.emptyReply => true
  | _ => false

/-- Recognizes a log record tagged with the helper's name. -/
def isHelperLog : Act → Bool
  | Act.log _ msg => ("[" ++ HELPER_NAME ++ "] ").isPrefixOf msg
  | _ => false

/-- A device stub whose get always yields a value and whose set succeeds. -/
def devOk : HwDevice :=
  { get_parameters := fun _ => some "v", set_parameters := fun _ => 0 }

/-- A device stub whose get yields a null pointer and whose set fails. -/
def devFail : HwDevice :=
  { get_parameters := fun _ => none, set_parameters := fun _ => -1 }

/-- A fully active module state: helper running with pid 33, descriptor 5
registered as io event 0, protocol and hw module held. -/
def u_active : Userdata :=
  { dbus_protocol := some 1, hw_module := some 2, pid := 33, fd := 5, io_event := some 0 }

/-- The module state after pa__init fails at the helper-boolean argument
validation: userdata allocated and zeroed, no resource acquired yet. -/
def u_start_argfail : Userdata :=
  { dbus_protocol := none, hw_module := none, pid := -1, fd := -1, io_event := none }

/-- A module state where start completed with helper disabled: protocol and
hw module held, no helper pid, no descriptor, no io event. -/
def u_full : Userdata :=
  { dbus_protocol := some 1, hw_module := some 2, pid := -1, fd := -1, io_event := none }

theorem string_data_append (a b : String) : (a ++ b).data = a.data ++ b.data := rfl

/-- After io_free the state is Idle: no event-loop registration and no open
descriptor, whatever the starting state. -/
theorem io_free_clears (u : Userdata) :
    (io_free u).1.io_event = none ∧ (io_free u).1.fd < 0 := by
  rcases h : u.io_event with _ | ev <;> by_cases hfd : u.fd ≥ 0 <;>
    simp [io_free, h, hfd] <;> omega

/-- The waitpid loop never sends a signal. -/
theorem wait_loop_no_kill (w : List WaitResult) : (wait_loop w).countP isKill = 0 := by
  induction w with
  | nil => rfl
  | cons x rest ih => cases x <;> simp [wait_loop, isKill, List.countP_cons, ih]

/-- The waitpid loop driven by an all-EINTR prefix followed by a success
performs exactly one wait per interruption plus the final successful one,
and nothing else. -/
theorem wait_loop_eintr_success (pre rest : List WaitResult)
    (hpre : ∀ x ∈ pre, x = WaitResult.eintr) :
    wait_loop (pre ++ WaitResult.success :: rest) =
      List.replicate (pre.length + 1) Act.waitpidCall := by
  induction pre with
  | nil => rfl
  | cons x p ih =>
      have hx : x = WaitResult.eintr := hpre x (by simp)
      subst hx
      simp [wait_loop, ih (fun y hy => hpre y (by simp [hy])), List.replicate_succ]

/-- The waitpid loop driven by an all-EINTR prefix followed by any other
failure performs one wait per interruption plus the failing one, logs the
failure once, and aborts. -/
theorem wait_loop_eintr_failed (pre rest : List WaitResult)
    (hpre : ∀ x ∈ pre, x = WaitResult.eintr) :
    wait_loop (pre ++ WaitResult.failed :: rest) =
      List.replicate (pre.length + 1) Act.waitpidCall ++
        [Act.log LogSeverity.plain "waitpid() failed"] := by
  induction pre with
  | nil => rfl
  | cons x p ih =>
      have hx : x = WaitResult.eintr := hpre x (by simp)
      subst hx
      simp [wait_loop, ih (fun y hy => hpre y (by simp [hy])), List.replicate_succ]

/-- Claim C10: one invocation of io_event_cb handles at most one interest
kind, with fixed priority readable over hangup over error: with readable
interest reported the result is independent of the hangup and error bits
(only the read branch executes), and with hangup reported (no readable)
the result is independent of the error bit. -/
theorem C10_single_branch_priority (h e : Bool) (r : ReadOutcome)
    (lvl : PaLogLevel) (u : Userdata) :
    io_event_cb ⟨true, h, e⟩ r lvl u = io_event_cb ⟨true, false, false⟩ r lvl u ∧
    io_event_cb ⟨false, true, e⟩ r lvl u = io_event_cb ⟨false, true, false⟩ r lvl u :=
  ⟨rfl, rfl⟩

/-- Claim C4 counterexample: with readable interest and a zero read result
the pump leaves the session fully intact — the registration stays, the
descriptor stays open, and nothing is logged — refuting that every
non-positive read result ends the helper session. -/
theorem C4_counterexample :
    io_event_cb ⟨true, false, false⟩ ReadOutcome.empty PaLogLevel.info u_active =
      (u_active, []) ∧
    u_active.io_event = some 0 ∧ u_active.fd = 5 :=
  ⟨rfl, rfl, rfl⟩

/-- Claim C4 (amended): with readable interest, a negative read result ends
the helper session — registration deregistered, descriptor closed (state
Idle), read failure logged — while a zero read result does nothing at all
and the session continues. -/
theorem C4_negative_read_ends_session (lvl : PaLogLevel) (u : Userdata) :
    (io_event_cb ⟨true, false, false⟩ ReadOutcome.failed lvl u).1.io_event = none ∧
    (io_event_cb ⟨true, false, false⟩ ReadOutcome.failed lvl u).1.fd < 0 ∧
    Act.log LogSeverity.plain "failed read" ∈
      (io_event_cb ⟨true, false, false⟩ ReadOutcome.failed lvl u).2 ∧
    io_event_cb ⟨true, false, false⟩ ReadOutcome.empty lvl u = (u, []) := by
  refine ⟨?_, ?_, ?_, rfl⟩
  · simpa [io_event_cb] using (io_free_clears u).1
  · simpa [io_event_cb] using (io_free_clears u).2
  · simp [io_event_cb]

/-- Claim C7: for every positive read handled by io_event_cb, exactly one
log record is emitted, at debug severity exactly when the module's
configured log level is PA_LOG_DEBUG and at the bare pa_log severity in
every other configuration. -/
theorem C7_helper_log_severity (lvl : PaLogLevel) (h e : Bool)
    (bytes : List UInt8) (u : Userdata) :
    ((io_event_cb ⟨true, h, e⟩ (ReadOutcome.data bytes) lvl u).2.countP isDebugLog = 1 ↔
        lvl = PaLogLevel.debug) ∧
    ((io_event_cb ⟨true, h, e⟩ (ReadOutcome.data bytes) lvl u).2.countP isPlainLog = 1 ↔
        lvl ≠ PaLogLevel.debug) ∧
    (io_event_cb ⟨true, h, e⟩ (ReadOutcome.data bytes) lvl u).2.length = 1 := by
  cases lvl <;>
    simp [io_event_cb, log_level_debug, isDebugLog, isPlainLog,
      List.countP_cons, List.countP_nil]

/-- Claim C7 witness: configured at debug level, the record of a one-byte
read is emitted at debug severity. -/
theorem C7_witness :
    (io_event_cb ⟨true, false, false⟩ (ReadOutcome.data [65]) PaLogLevel.debug
      u_active).2.countP isDebugLog = 1 :=
  (C7_helper_log_severity PaLogLevel.debug false false [65] u_active).1.mpr rfl

/-- Claim C6 (code evaluated at the failing input): the scratch buffer is
always exactly BUFFER_MAX bytes, but a read that fills all 512 bytes with
non-NUL data (here 512 bytes 'A') leaves no NUL terminator anywhere in
the buffer, while any shorter read does leave one — so the content passed
to the %s log conversion is not null-terminated on a full read. -/
theorem C6_full_read_unterminated :
    (bufferAfterRead (List.replicate BUFFER_MAX (65 : UInt8))).length = BUFFER_MAX ∧
    (0 : UInt8) ∉ bufferAfterRead (List.replicate BUFFER_MAX (65 : UInt8)) ∧
    (0 : UInt8) ∈ bufferAfterRead (List.replicate (BUFFER_MAX - 1) (65 : UInt8)) := by
  have e1 : bufferAfterRead (List.replicate BUFFER_MAX (65 : UInt8)) =
      List.replicate BUFFER_MAX (65 : UInt8) := by
    rw [bufferAfterRead, List.take_of_length_le (le_of_eq (List.length_replicate _ _))]
    rw [List.length_replicate, Nat.sub_self, List.replicate_zero, List.append_nil]
  have hB : BUFFER_MAX - (BUFFER_MAX - 1) = 1 := by
    have : BUFFER_MAX = 512 := rfl
    omega
  have e2 : bufferAfterRead (List.replicate (BUFFER_MAX - 1) (65 : UInt8)) =
      List.replicate (BUFFER_MAX - 1) (65 : UInt8) ++ [(0 : UInt8)] := by
    rw [bufferAfterRead,
      List.take_of_length_le ((le_of_eq (List.length_replicate _ _)).trans (Nat.sub_le _ _)),
      List.length_replicate, hB]
    rfl
  refine ⟨?_, ?_, ?_⟩
  · rw [e1, List.length_replicate]
  · rw [e1, List.mem_replicate]
    intro hcontra
    exact absurd hcontra.2 (by decide)
  · rw [e2]
    exact List.mem_append_right _ (by simp)

/-- Parts of the warning message built by hidl_set_parameters: it contains
the numeric status and the original input string as substrings. -/
theorem warn_msg_parts (kvp : String) (ret : Int) :
    (toString ret).data <:+:
      ("set_parameters(\x22" ++ kvp ++ "\x22) failed: " ++ toString ret).data ∧
    kvp.data <:+:
      ("set_parameters(\x22" ++ kvp ++ "\x22) failed: " ++ toString ret).data := by
  constructor
  · exact ⟨("set_parameters(\x22" ++ kvp ++ "\x22) failed: ").data, [],
      by simp [string_data_append]⟩
  · exact ⟨("set_parameters(\x22").data, ("\x22) failed: " ++ toString ret).data,
      by simp [string_data_append]⟩

/-- Claim C2: for every parsed SetParameters argument, the empty success
reply is sent exactly when the device's set call returns status zero; on
any nonzero status the handler sends exactly one error reply, no success
reply, and exactly one warning-level log record, and every warning record
it emits contains the numeric status and the original input string. -/
theorem C2_set_parameters_reply (dev : HwDevice) (kvp : String) :
    (Act.reply Reply.emptyReply ∈ hidl_set_parameters (Except.ok kvp) dev ↔
        dev.set_parameters kvp = 0) ∧
    (dev.set_parameters kvp ≠ 0 →
      (hidl_set_parameters (Except.ok kvp) dev).countP isErrorReply = 1 ∧
      (hidl_set_parameters (Except.ok kvp) dev).countP isEmptyReply = 0 ∧
      (hidl_set_parameters (Except.ok kvp) dev).countP isWarnLog = 1 ∧
      ∀ m, Act.log LogSeverity.warn m ∈ hidl_set_parameters (Except.ok kvp) dev →
        (toString (dev.set_parameters kvp)).data <:+: m.data ∧
          kvp.data <:+: m.data) := by
  by_cases h0 : dev.set_parameters kvp = 0
  · refine ⟨?_, fun hne => absurd h0 hne⟩
    simp [hidl_set_parameters, h0]
  · refine ⟨?_, fun _ => ⟨?_, ?_, ?_, ?_⟩⟩
    · simp [hidl_set_parameters, h0]
    · simp [hidl_set_parameters, h0, isErrorReply, List.countP_cons]
    · simp [hidl_set_parameters, h0, isEmptyReply, List.countP_cons]
    · simp [hidl_set_parameters, h0, isWarnLog, List.countP_cons]
    · intro m hm
      simp [hidl_set_parameters, h0] at hm
      subst hm
      exact warn_msg_parts kvp (dev.set_parameters kvp)

/-- Claim C2 witness: against a device whose set call returns -1, the input
string bad produces exactly one error reply. -/
theorem C2_witness :
    devFail.set_parameters "bad" ≠ 0 ∧
    (hidl_set_parameters (Except.ok "bad") devFail).countP isErrorReply = 1 :=
  ⟨by decide, ((C2_set_parameters_reply devFail "bad").2 (by decide)).1⟩

/-- Claim C3: for every successfully parsed GetParameters call the reply
carries exactly the string the device returned, unmodified (it is the
only reply sent); for a parse failure the handler's whole trace is one
error reply carrying the parse failure description — the device lock is
never taken and get_parameters is never invoked. -/
theorem C3_get_parameters_passthrough (dev : HwDevice) (keys e : String) :
    (Act.reply (Reply.methodReturn (dev.get_parameters keys)) ∈
        hidl_get_parameters (Except.ok keys) dev ∧
      ∀ r, Act.reply r ∈ hidl_get_parameters (Except.ok keys) dev →
        r = Reply.methodReturn (dev.get_parameters keys)) ∧
    (hidl_get_parameters (Except.error e) dev =
        [Act.reply (Reply.errorReply ("Fail: " ++ e))] ∧
      Act.lock ∉ hidl_get_parameters (Except.error e) dev ∧
      ∀ k, Act.devGet k ∉ hidl_get_parameters (Except.error e) dev) := by
  refine ⟨⟨?_, ?_⟩, rfl, ?_, ?_⟩
  · simp [hidl_get_parameters]
  · intro r hr
    simpa [hidl_get_parameters] using hr
  · simp [hidl_get_parameters]
  · intro k
    simp [hidl_get_parameters]

/-- Claim C3 witness: the reply to GetParameters k carries exactly what the
device returned for k. -/
theorem C3_witness :
    Act.reply (Reply.methodReturn (devOk.get_parameters "k")) ∈
      hidl_get_parameters (Except.ok "k") devOk :=
  (C3_get_parameters_passthrough devOk "k" "x").1.1

/-- Claim C8: when the device's get call yields a null pointer or an empty
string for a successfully parsed GetParameters call, the handler still
sends the success reply carrying that result unchanged, and sends no
error reply. -/
theorem C8_null_result_success (dev : HwDevice) (keys : String)
    (_h : dev.get_parameters keys = none ∨ dev.get_parameters keys = some "") :
    Act.reply (Reply.methodReturn (dev.get_parameters keys)) ∈
      hidl_get_parameters (Except.ok keys) dev ∧
    (hidl_get_parameters (Except.ok keys) dev).countP isErrorReply = 0 := by
  constructor
  · simp [hidl_get_parameters]
  · simp [hidl_get_parameters, isErrorReply, List.countP_cons]

/-- Claim C8 witness: a device returning a null pointer still gets a
success reply carrying the null-equivalent payload and no error reply. -/
theorem C8_witness :
    devFail.get_parameters "k" = none ∧
    Act.reply (Reply.methodReturn none) ∈ hidl_get_parameters (Except.ok "k") devFail ∧
    (hidl_get_parameters (Except.ok "k") devFail).countP isErrorReply = 0 :=
  ⟨rfl, (C8_null_result_success devFail "k" (Or.inl rfl)).1,
    (C8_null_result_success devFail "k" (Or.inl rfl)).2⟩

/-- Claim C1 (code evaluated at the failing input): from the state left by
a Start that failed before the interface registration (userdata allocated,
every resource field still its null/absent marker), the teardown faults —
dbus_done runs unconditionally and performs the protocol release calls on
a null protocol reference — whereas from a state holding only the
protocol reference the remaining guarded steps all complete.  The
device-handle, helper-pid and descriptor/registration steps are guarded
by their nullable fields, the interface-deregistration step is not. -/
theorem C1_teardown_unguarded_interface_release :
    pa__done { userdata := some u_start_argfail, userdata_freed := false } [] = none ∧
    (∃ m t,
      pa__done { userdata := some { u_start_argfail with dbus_protocol := some 1 },
                 userdata_freed := false } [] = some (m, t)) :=
  ⟨rfl, ⟨_, _, rfl⟩⟩

/-- Claim C5 counterexample: from a fully started module state (helper
disabled), one Stop succeeds, but Stop twice in succession faults on the
second call — pa__done frees the userdata without clearing the module's
pointer to it — so two Stops are not observably equivalent to one and the
second produces a failure. -/
theorem C5_counterexample :
    (pa__done { userdata := some u_full, userdata_freed := false } []).isSome = true ∧
    (pa__done { userdata := some u_full, userdata_freed := false } []).bind
        (fun p => pa__done p.1 []) = none :=
  ⟨rfl, rfl⟩

/-- Claim C5 (amended): Stop from a state whose interface registration is
present completes without observable failure, releasing everything; but
it is not idempotent — the userdata is freed while the module still
points to it, so a second Stop dereferences freed state and faults
instead of being a no-op. -/
theorem C5_stop_once_not_twice (u : Userdata) (w w2 : List WaitResult)
    (hd : u.dbus_protocol ≠ none) :
    ∃ m1 t, pa__done { userdata := some u, userdata_freed := false } w = some (m1, t) ∧
      m1.userdata_freed = true ∧
      pa__done m1 w2 = none := by
  obtain ⟨p, hp⟩ := Option.ne_none_iff_exists'.mp hd
  have hdb : dbus_done u = some ({ u with dbus_protocol := none },
      [Act.dbusUnregisterExtension p, Act.dbusRemoveInterface p, Act.dbusUnref p]) := by
    simp [dbus_done, hp]
  refine ⟨{ userdata :=
              some (io_free (hw_module_unref_step { u with dbus_protocol := none }).1).1,
            userdata_freed := true },
          [Act.dbusUnregisterExtension p, Act.dbusRemoveInterface p, Act.dbusUnref p] ++
            (hw_module_unref_step { u with dbus_protocol := none }).2 ++
            terminate (hw_module_unref_step { u with dbus_protocol := none }).1 w ++
            (io_free (hw_module_unref_step { u with dbus_protocol := none }).1).2 ++
            [Act.freeUserdata],
          ?_, rfl, rfl⟩
  simp [pa__done, hdb]

/-- Claim C5 witness: the amended statement at the concrete fully-started
state with helper disabled. -/
theorem C5_witness :
    u_full.dbus_protocol ≠ none ∧
    (∃ m1 t, pa__done { userdata := some u_full, userdata_freed := false } [] = some (m1, t) ∧
      m1.userdata_freed = true ∧ pa__done m1 [] = none) :=
  ⟨by decide, C5_stop_once_not_twice u_full [] [] (by decide)⟩

/-- Claim C9: the helper-termination step of teardown is a no-op when no
pid is tracked; with a tracked pid it sends exactly one termination
signal, then waits: after a run of EINTR interruptions ending in a
successful wait it performs exactly one wait per interruption plus the
final one and nothing more, and after a run of EINTR interruptions ending
in any other wait failure it performs those waits, logs the failure
exactly once, and aborts the loop without any further action. -/
theorem C9_terminate_signal_and_reap (u : Userdata) (w : List WaitResult) :
    (u.pid = -1 → terminate u w = []) ∧
    (u.pid ≠ -1 →
      terminate u w = Act.kill u.pid :: wait_loop w ∧
      (terminate u w).countP isKill = 1 ∧
      (∀ pre rest, w = pre ++ WaitResult.success :: rest →
        (∀ x ∈ pre, x = WaitResult.eintr) →
        terminate u w = Act.kill u.pid ::
          List.replicate (pre.length + 1) Act.waitpidCall) ∧
      (∀ pre rest, w = pre ++ WaitResult.failed :: rest →
        (∀ x ∈ pre, x = WaitResult.eintr) →
        terminate u w = Act.kill u.pid ::
          (List.replicate (pre.length + 1) Act.waitpidCall ++
            [Act.log LogSeverity.plain "waitpid() failed"]))) := by
  constructor
  · intro h0
    simp [terminate, h0]
  · intro hne
    refine ⟨by simp [terminate, hne], ?_, ?_, ?_⟩
    · simp [terminate, hne, isKill, List.countP_cons, wait_loop_no_kill]
    · intro pre rest hw hpre
      subst hw
      simp [terminate, hne, wait_loop_eintr_success pre rest hpre]
    · intro pre rest hw hpre
      subst hw
      simp [terminate, hne, wait_loop_eintr_failed pre rest hpre]

/-- Claim C9 witness: with pid 7 tracked and a wait interrupted once by
EINTR before succeeding, teardown sends one SIGTERM and performs exactly
two waitpid calls. -/
theorem C9_witness :
    (⟨none, none, 7, -1, none⟩ : Userdata).pid ≠ -1 ∧
    terminate ⟨none, none, 7, -1, none⟩ [WaitResult.eintr, WaitResult.success] =
      [Act.kill 7, Act.waitpidCall, Act.waitpidCall] := by
  refine ⟨by decide, ?_⟩
  have h := ((C9_terminate_signal_and_reap
      (⟨none, none, 7, -1, none⟩ : Userdata)
      [WaitResult.eintr, WaitResult.success]).2 (by decide)).2.2.1
      [WaitResult.eintr] [] rfl (by decide)
  simpa using h
